import Mathlib

/-!
Verification development for the personal-crm repository (src/app.py).

The Python application is a Streamlit CRUD front end over four PostgreSQL
tables (companies, jobs, recruiters, tasks).  We shallowly embed the data
model and the query/write functions of `app.py`: tables become lists of
records, the database becomes an explicit `DB` state, a write runs inside a
modelled transaction (execute on a pending copy, commit on success, roll
back to the committed copy on exception), and a possible backend exception
is an explicit `fails : Bool` parameter.  Timestamps and dates are `Nat`
(only their order matters); SQL NULL is `Option`.
-/

namespace PersonalCRM

/-- Row of the `companies` table:
companies(company_id PK, company_name, sector, website, notes, source, created_at). -/
structure CompanyRow where
  company_id : Nat
  company_name : String
  sector : String
  website : String
  notes : String
  source : String
  created_at : Nat
  deriving DecidableEq, Repr

/-- Row of the `jobs` table:
jobs(job_id PK, job_title, company_id FK, location, status, job_url, notes, date_found, created_at). -/
structure JobRow where
  job_id : Nat
  job_title : String
  company_id : Nat
  location : String
  status : String
  job_url : String
  notes : String
  date_found : Option Nat
  created_at : Nat
  deriving DecidableEq, Repr

/-- Row of the `recruiters` table:
recruiters(recruiter_id PK, name, agency_company_id FK NULLABLE, contact_info, notes,
first_contact_date, created_at). -/
structure RecruiterRow where
  recruiter_id : Nat
  name : String
  agency_company_id : Option Nat
  contact_info : String
  notes : String
  first_contact_date : Option Nat
  created_at : Nat
  deriving DecidableEq, Repr

/-- Row of the `tasks` table:
tasks(task_id PK, task_description, due_date, status, priority NULLABLE, notes,
job_id FK NULLABLE, recruiter_id FK NULLABLE, company_id FK NULLABLE, created_at). -/
structure TaskRow where
  task_id : Nat
  task_description : String
  due_date : Option Nat
  status : String
  priority : Option String
  notes : String
  job_id : Option Nat
  recruiter_id : Option Nat
  company_id : Option Nat
  created_at : Nat
  deriving DecidableEq, Repr

/-- The committed database state.  The `next*Id` fields model the PK
sequences (SERIAL columns); `clock` models the `created_at` default
`now()`, ticking once per insert. -/
structure DB where
  companies : List CompanyRow
  jobs : List JobRow
  recruiters : List RecruiterRow
  tasks : List TaskRow
  nextCompanyId : Nat
  nextJobId : Nat
  nextRecruiterId : Nat
  nextTaskId : Nat
  clock : Nat
  deriving DecidableEq, Repr

/-- An open transaction: the committed state it started from, and the
pending state including uncommitted statement effects. -/
structure Txn where
  committed : DB
  pending : DB
  deriving DecidableEq, Repr

/-- `with db_conn.cursor() as cur:` opens a transaction on the connection. -/
def beginTxn (db : DB) : Txn := ⟨db, db⟩

/-- `cur.execute(...)` applies a statement's effect to the pending state only. -/
def execStmt (t : Txn) (change : DB → DB) : Txn := { t with pending := change t.pending }

/-- `db_conn.commit()` publishes the pending state. -/
def commitTxn (t : Txn) : DB := t.pending

/-- `db_conn.rollback()` discards the pending state and restores the
committed state. -/
def rollbackTxn (t : Txn) : DB := t.committed

/-- The common try/except shape of every write in `app.py`:
execute the statement, then either the commit succeeds (returning `True`)
or an exception is raised somewhere in the execute/commit (modelled by
`fails = true`), in which case the `except` branch rolls back and returns
`False`. -/
def txnWrite (db : DB) (fails : Bool) (change : DB → DB) : DB × Bool :=
  let t := execStmt (beginTxn db) change
  if fails then (rollbackTxn t, false) else (commitTxn t, true)

/-- `add_new_job` (app.py lines 96-107): validates title and company id,
then INSERTs inside a transaction. -/
def add_new_job (db : DB) (fails : Bool) (title : String) (comp_id : Option Nat)
    (loc stat url notes_val : String) (date_f : Option Nat) : DB × Bool :=
  if title = "" then (db, false)
  else match comp_id with
  | none => (db, false)
  | some cid =>
      txnWrite db fails (fun d =>
        { d with
          jobs := d.jobs ++ [⟨d.nextJobId, title, cid, loc, stat, url, notes_val, date_f, d.clock⟩],
          nextJobId := d.nextJobId + 1,
          clock := d.clock + 1 })

/-- `update_job_details` (app.py lines 109-120): requires truthy id, title,
status and a non-None company id, then UPDATEs the full row. -/
def update_job_details (db : DB) (fails : Bool) (j_id : Nat) (title : String)
    (comp_id : Option Nat) (loc stat url notes_val : String) (date_f : Option Nat) : DB × Bool :=
  if j_id = 0 ∨ title = "" ∨ stat = "" then (db, false)
  else match comp_id with
  | none => (db, false)
  | some cid =>
      txnWrite db fails (fun d =>
        { d with jobs := d.jobs.map (fun j =>
            if j.job_id = j_id then
              { j with job_title := title, company_id := cid, location := loc,
                       status := stat, job_url := url, notes := notes_val, date_found := date_f }
            else j) })

/-- `delete_job_record` (app.py lines 122-129): requires a truthy id, then
DELETEs the matching row (deleting an absent id succeeds with zero rows). -/
def delete_job_record (db : DB) (fails : Bool) (job_id : Nat) : DB × Bool :=
  if job_id = 0 then (db, false)
  else txnWrite db fails (fun d =>
    { d with jobs := d.jobs.filter (fun j => j.job_id != job_id) })

/-- `add_new_recruiter` (app.py lines 153-163). -/
def add_new_recruiter (db : DB) (fails : Bool) (name : String) (agency_id : Option Nat)
    (contact notes_val : String) (date_f : Option Nat) : DB × Bool :=
  if name = "" then (db, false)
  else txnWrite db fails (fun d =>
    { d with
      recruiters := d.recruiters ++
        [⟨d.nextRecruiterId, name, agency_id, contact, notes_val, date_f, d.clock⟩],
      nextRecruiterId := d.nextRecruiterId + 1,
      clock := d.clock + 1 })

/-- Recruiter UPDATE written inline in the edit form handler
(app.py lines 556-568): name validated before the try block. -/
def update_recruiter_inline (db : DB) (fails : Bool) (rec_id : Nat) (name : String)
    (agency_id : Option Nat) (contact notes_val : String) (date_f : Option Nat) : DB × Bool :=
  if name = "" then (db, false)
  else txnWrite db fails (fun d =>
    { d with recruiters := d.recruiters.map (fun r =>
        if r.recruiter_id = rec_id then
          { r with name := name, agency_company_id := agency_id, contact_info := contact,
                   notes := notes_val, first_contact_date := date_f }
        else r) })

/-- Recruiter DELETE written inline in the confirm handler
(app.py lines 577-585). -/
def delete_recruiter_inline (db : DB) (fails : Bool) (rec_id : Nat) : DB × Bool :=
  txnWrite db fails (fun d =>
    { d with recruiters := d.recruiters.filter (fun r => r.recruiter_id != rec_id) })

/-- `add_new_company` (app.py lines 182-192). -/
def add_new_company (db : DB) (fails : Bool) (name sector_val web notes_val src : String) :
    DB × Bool :=
  if name = "" then (db, false)
  else txnWrite db fails (fun d =>
    { d with
      companies := d.companies ++
        [⟨d.nextCompanyId, name, sector_val, web, notes_val, src, d.clock⟩],
      nextCompanyId := d.nextCompanyId + 1,
      clock := d.clock + 1 })

/-- Company UPDATE written inline in the edit form handler
(app.py lines 648-662): name validated before the try block. -/
def update_company_inline (db : DB) (fails : Bool) (comp_id : Nat)
    (name sector_val web notes_val src : String) : DB × Bool :=
  if name = "" then (db, false)
  else txnWrite db fails (fun d =>
    { d with companies := d.companies.map (fun c =>
        if c.company_id = comp_id then
          { c with company_name := name, sector := sector_val, website := web,
                   notes := notes_val, source := src }
        else c) })

/-- Company DELETE written inline in the confirm handler
(app.py lines 671-679). -/
def delete_company_inline (db : DB) (fails : Bool) (comp_id : Nat) : DB × Bool :=
  txnWrite db fails (fun d =>
    { d with companies := d.companies.filter (fun c => c.company_id != comp_id) })

/-- `add_new_task` (app.py lines 232-242): description and status required. -/
def add_new_task (db : DB) (fails : Bool) (desc : String) (due : Option Nat) (stat : String)
    (prio : Option String) (notes_val : String) (j_id rec_id comp_id : Option Nat) : DB × Bool :=
  if desc = "" ∨ stat = "" then (db, false)
  else txnWrite db fails (fun d =>
    { d with
      tasks := d.tasks ++
        [⟨d.nextTaskId, desc, due, stat, prio, notes_val, j_id, rec_id, comp_id, d.clock⟩],
      nextTaskId := d.nextTaskId + 1,
      clock := d.clock + 1 })

/-- `update_task_details` (app.py lines 259-272): truthy id, description and
status required, then UPDATEs the full row. -/
def update_task_details (db : DB) (fails : Bool) (task_id : Nat) (desc : String)
    (due : Option Nat) (stat : String) (prio : Option String) (notes_val : String)
    (j_id rec_id comp_id : Option Nat) : DB × Bool :=
  if task_id = 0 ∨ desc = "" ∨ stat = "" then (db, false)
  else txnWrite db fails (fun d =>
    { d with tasks := d.tasks.map (fun t =>
        if t.task_id = task_id then
          { t with task_description := desc, due_date := due, status := stat,
                   priority := prio, notes := notes_val, job_id := j_id,
                   recruiter_id := rec_id, company_id := comp_id }
        else t) })

/-- `delete_task_record` (app.py lines 274-281). -/
def delete_task_record (db : DB) (fails : Bool) (task_id : Nat) : DB × Bool :=
  if task_id = 0 then (db, false)
  else txnWrite db fails (fun d =>
    { d with tasks := d.tasks.filter (fun t => t.task_id != task_id) })

/-- A failing transaction rolls back to exactly the state it started from. -/
theorem txnWrite_fails (db : DB) (change : DB → DB) :
    txnWrite db true change = (db, false) := rfl

/-- Claim C1: for every write operation (insert, update, delete on each of
Company, Job, Recruiter, Task), if the underlying query raises an exception
(`fails = true`), the transaction is rolled back, the committed state is
left exactly as it was, and `false` is returned to the caller; no partially
applied write is visible and the operation commits only on success. -/
theorem C1_writes_rollback_on_exception (db : DB)
    (title loc stat url notes sector web src name contact desc : String)
    (j_id r_id c_id t_id : Nat) (mcid aid jl rl cl : Option Nat)
    (d1 due : Option Nat) (prio : Option String) :
    add_new_job db true title mcid loc stat url notes d1 = (db, false) ∧
    update_job_details db true j_id title mcid loc stat url notes d1 = (db, false) ∧
    delete_job_record db true j_id = (db, false) ∧
    add_new_recruiter db true name aid contact notes d1 = (db, false) ∧
    update_recruiter_inline db true r_id name aid contact notes d1 = (db, false) ∧
    delete_recruiter_inline db true r_id = (db, false) ∧
    add_new_company db true name sector web notes src = (db, false) ∧
    update_company_inline db true c_id name sector web notes src = (db, false) ∧
    delete_company_inline db true c_id = (db, false) ∧
    add_new_task db true desc due stat prio notes jl rl cl = (db, false) ∧
    update_task_details db true t_id desc due stat prio notes jl rl cl = (db, false) ∧
    delete_task_record db true t_id = (db, false) := by
  refine ⟨?_, ?_, ?_, ?_, ?_, ?_, ?_, ?_, ?_, ?_, ?_, ?_⟩ <;>
    simp only [add_new_job, update_job_details, delete_job_record, add_new_recruiter,
      update_recruiter_inline, delete_recruiter_inline, add_new_company,
      update_company_inline, delete_company_inline, add_new_task, update_task_details,
      delete_task_record, txnWrite_fails] <;>
    (repeat' split) <;> rfl

/-- The status list `s` hard-coded in `get_job_status_counts`
(app.py line 66): it has four entries, not the five of
`job_status_options` (line 308) — `"Rejected"` is missing. -/
def jobStatusQueryVocab : List String := ["Not Applied", "Applied", "Interviewing", "Offer"]

/-- `get_job_status_counts` (app.py lines 64-73): a dict primed with 0 for
each status in `s`, then overwritten with the GROUP BY count of the jobs
whose status is in `s`.  Net effect: one entry per vocabulary status, in
vocabulary order, holding the number of jobs with that exact status. -/
def get_job_status_counts (jobs : List JobRow) : List (String × Nat) :=
  jobStatusQueryVocab.map (fun s => (s, (jobs.filter (fun j => j.status == s)).length))

/-- A job row with only id, status and creation time distinguished
(the other fields are irrelevant to the aggregation queries). -/
def mkStatusJob (i : Nat) (stat : String) : JobRow :=
  ⟨i, "title", 1, "", stat, "", "", none, i⟩

/-- The sample table of the spec's aggregation test: five jobs with
statuses [Applied, Applied, Interviewing, Offer, Not Applied]. -/
def sampleJobsC2 : List JobRow :=
  [mkStatusJob 1 "Applied", mkStatusJob 2 "Applied", mkStatusJob 3 "Interviewing",
   mkStatusJob 4 "Offer", mkStatusJob 5 "Not Applied"]

/-- Claim C2, counterexample: on the spec's own sample input the
status-count map has no `"Rejected"` key at all — the claimed entry
`Rejected ↦ 0` is absent, and the map is the four-entry map, not the
claimed five-entry one. -/
theorem C2_counterexample :
    (get_job_status_counts sampleJobsC2).lookup "Rejected" = none ∧
    get_job_status_counts sampleJobsC2 ≠
      [("Not Applied", 1), ("Applied", 2), ("Interviewing", 1), ("Offer", 1), ("Rejected", 0)] := by
  decide

/-- Claim C2, amended: the job-status-count query returns a map over the
fixed FOUR-status vocabulary [Not Applied, Applied, Interviewing, Offer];
every vocabulary status with zero matching rows is reported as 0 rather
than being absent, but `"Rejected"` is never a key of the map.  On the
sample input [Applied, Applied, Interviewing, Offer, Not Applied] it
returns {Not Applied:1, Applied:2, Interviewing:1, Offer:1}. -/
theorem C2_status_counts_amended (jobs : List JobRow) :
    (get_job_status_counts jobs).map Prod.fst = jobStatusQueryVocab ∧
    (get_job_status_counts jobs).lookup "Not Applied" =
      some ((jobs.filter (fun j => j.status == "Not Applied")).length) ∧
    (get_job_status_counts jobs).lookup "Applied" =
      some ((jobs.filter (fun j => j.status == "Applied")).length) ∧
    (get_job_status_counts jobs).lookup "Interviewing" =
      some ((jobs.filter (fun j => j.status == "Interviewing")).length) ∧
    (get_job_status_counts jobs).lookup "Offer" =
      some ((jobs.filter (fun j => j.status == "Offer")).length) ∧
    (get_job_status_counts jobs).lookup "Rejected" = none ∧
    get_job_status_counts sampleJobsC2 =
      [("Not Applied", 1), ("Applied", 2), ("Interviewing", 1), ("Offer", 1)] := by
  refine ⟨rfl, ?_, ?_, ?_, ?_, ?_, by decide⟩ <;>
    simp [get_job_status_counts, jobStatusQueryVocab, List.lookup]

/-- A generic (id, display-name) row as fetched by the selectbox query
`SELECT id_col, name_col FROM table ORDER BY name_col ASC`. -/
structure NamedRow where
  id : Nat
  name : String
  deriving DecidableEq, Repr

/-- Python dict assignment `options_map[name] = id` on an insertion-ordered
association list: overwrite the entry whose key matches, in place, otherwise
append the new entry at the end (dicts preserve key insertion order; a dict
never holds two entries with the same key). -/
def assocUpdate : List (String × Option Nat) → String → Option Nat → List (String × Option Nat)
  | [], k, v => [(k, v)]
  | p :: t, k, v => if p.1 = k then (k, v) :: t else p :: assocUpdate t k v

/-- The ORDER BY of `get_options`: name ascending (all three call sites
leave `order_by_col` unset, so it defaults to the name column). -/
def byNameLE (a b : NamedRow) : Bool := decide (a.name ≤ b.name)

/-- `get_options` (app.py lines 35-50): on a missing connection or any
query error return just `{default: None}`; otherwise start from
`{default: None}` and assign `options_map[row.name] = row.id` for each row
in query-result order. -/
def get_options (ok : Bool) (rows : List NamedRow) (default_option_text : String) :
    List (String × Option Nat) :=
  if !ok then [(default_option_text, none)]
  else
    (rows.mergeSort byNameLE).foldl
      (fun m row => assocUpdate m row.name (some row.id))
      [(default_option_text, none)]

/-- `load_selectbox_options` (app.py lines 32-55): the three
name-to-identifier mappings for companies, jobs and recruiters. -/
def load_selectbox_options (ok : Bool) (db : DB) :
    List (String × Option Nat) × List (String × Option Nat) × List (String × Option Nat) :=
  (get_options ok (db.companies.map (fun c => ⟨c.company_id, c.company_name⟩)) "--- Select Company ---",
   get_options ok (db.jobs.map (fun j => ⟨j.job_id, j.job_title⟩)) "--- Select Job ---",
   get_options ok (db.recruiters.map (fun r => ⟨r.recruiter_id, r.name⟩)) "--- Select Recruiter ---")

/-- `assocUpdate` with a key other than the head's leaves the head entry
in place. -/
theorem assocUpdate_head (m : List (String × Option Nat)) (k : String) (v : Option Nat)
    (ph : String) (hm : m.head? = some (ph, none)) (hk : k ≠ ph) :
    (assocUpdate m k v).head? = some (ph, none) := by
  cases m with
  | nil => simp at hm
  | cons p t =>
      simp only [List.head?_cons, Option.some.injEq] at hm
      subst hm
      simp [assocUpdate, Ne.symm hk]

/-- Folding dict assignments whose keys all differ from the head's key
leaves the head entry in place. -/
theorem foldl_assocUpdate_head (ph : String) (l : List NamedRow)
    (m : List (String × Option Nat)) (hm : m.head? = some (ph, none))
    (hl : ∀ r ∈ l, r.name ≠ ph) :
    (l.foldl (fun m row => assocUpdate m row.name (some row.id)) m).head? = some (ph, none) := by
  induction l generalizing m with
  | nil => exact hm
  | cons a t ih =>
      simp only [List.foldl_cons]
      exact ih _ (assocUpdate_head m a.name (some a.id) ph hm (hl a (by simp)))
        (fun r hr => hl r (by simp [hr]))

/-- If no fetched row's name equals the placeholder text, the resulting
mapping still has the placeholder entry, mapping to no identifier, at the
front. -/
theorem get_options_head (ok : Bool) (rows : List NamedRow) (ph : String)
    (h : ∀ r ∈ rows, r.name ≠ ph) :
    (get_options ok rows ph).head? = some (ph, none) := by
  unfold get_options
  split
  · rfl
  · exact foldl_assocUpdate_head ph _ _ rfl
      (fun r hr => h r (List.mem_mergeSort.mp hr))

/-- A company row whose name is literally the placeholder text of the
company selectbox. -/
def pathologicalCompany : CompanyRow := ⟨7, "--- Select Company ---", "", "", "", "", 0⟩

/-- A snapshot containing only `pathologicalCompany`. -/
def pathologicalDB : DB := ⟨[pathologicalCompany], [], [], [], 8, 1, 1, 1, 1⟩

/-- Claim C9, counterexample: in the snapshot whose single company is named
exactly `"--- Select Company ---"`, the company mapping's only entry is the
placeholder key bound to identifier 7 — the reserved entry does not map to
absent and is not distinct from the real names. -/
theorem C9_counterexample :
    (load_selectbox_options true pathologicalDB).1 =
      [("--- Select Company ---", some 7)] := by
  simp [load_selectbox_options, pathologicalDB, pathologicalCompany, get_options, assocUpdate]

/-- Claim C9, amended: for every snapshot in which no row's display name
equals the corresponding placeholder text, each of the three mappings
contains the reserved unselected-placeholder entry, mapping to absent, as
its first entry (hence distinct from every real name).  The code does not
actually reserve the placeholder: a row named exactly the placeholder text
overwrites the entry with its identifier. -/
theorem C9_placeholder_amended (ok : Bool) (db : DB)
    (hc : ∀ c ∈ db.companies, c.company_name ≠ "--- Select Company ---")
    (hj : ∀ j ∈ db.jobs, j.job_title ≠ "--- Select Job ---")
    (hr : ∀ r ∈ db.recruiters, r.name ≠ "--- Select Recruiter ---") :
    (load_selectbox_options ok db).1.head? = some ("--- Select Company ---", none) ∧
    (load_selectbox_options ok db).2.1.head? = some ("--- Select Job ---", none) ∧
    (load_selectbox_options ok db).2.2.head? = some ("--- Select Recruiter ---", none) := by
  refine ⟨?_, ?_, ?_⟩ <;>
    · apply get_options_head
      intro r hr'
      simp only [List.mem_map] at hr'
      obtain ⟨x, hx, rfl⟩ := hr'
      first
        | exact hc x hx
        | exact hj x hx
        | exact hr x hx

/-- A small healthy snapshot: one company, one job, one recruiter, none of
them named like a placeholder. -/
def demoDB : DB :=
  ⟨[⟨1, "Acme", "Tech", "", "", "", 0⟩],
   [⟨1, "Engineer", 1, "", "Applied", "", "", none, 1⟩],
   [⟨1, "Riley", some 1, "", "", none, 2⟩],
   [], 2, 2, 2, 1, 3⟩

/-- Witness for C9's amended theorem at the concrete snapshot `demoDB`. -/
theorem C9_placeholder_amended_witness :
    (load_selectbox_options true demoDB).1.head? = some ("--- Select Company ---", none) ∧
    (load_selectbox_options true demoDB).2.1.head? = some ("--- Select Job ---", none) ∧
    (load_selectbox_options true demoDB).2.2.head? = some ("--- Select Recruiter ---", none) :=
  C9_placeholder_amended true demoDB (by decide) (by decide) (by decide)

/-- Looking up the assigned key after a dict assignment finds the new
value. -/
theorem lookup_assocUpdate_self (m : List (String × Option Nat)) (k : String) (v : Option Nat) :
    (assocUpdate m k v).lookup k = some v := by
  induction m with
  | nil => simp [assocUpdate, List.lookup_cons]
  | cons p t ih =>
      rcases p with ⟨pk, pv⟩
      by_cases hp : pk = k
      · simp [assocUpdate, hp, List.lookup_cons]
      · have hb : (k == pk) = false := beq_eq_false_iff_ne.mpr (Ne.symm hp)
        simp [assocUpdate, hp, List.lookup_cons, hb, ih]

/-- A dict assignment to key `k` does not change the lookup of any other
key. -/
theorem lookup_assocUpdate_ne (m : List (String × Option Nat)) (k : String) (v : Option Nat)
    (name : String) (h : name ≠ k) :
    (assocUpdate m k v).lookup name = m.lookup name := by
  have hbk : (name == k) = false := beq_eq_false_iff_ne.mpr h
  induction m with
  | nil => simp [assocUpdate, List.lookup_cons, hbk]
  | cons p t ih =>
      rcases p with ⟨pk, pv⟩
      by_cases hp : pk = k
      · subst hp
        simp [assocUpdate, List.lookup_cons, hbk]
      · rw [show assocUpdate ((pk, pv) :: t) k v = (pk, pv) :: assocUpdate t k v by
          simp [assocUpdate, hp]]
        rw [List.lookup_cons, List.lookup_cons]
        cases hb : name == pk <;> simp [hb, ih]

/-- Dict assignment of an existing key keeps the key sequence unchanged; a
new key is appended at the end. -/
theorem keys_assocUpdate (m : List (String × Option Nat)) (k : String) (v : Option Nat) :
    (assocUpdate m k v).map Prod.fst =
      if k ∈ m.map Prod.fst then m.map Prod.fst else m.map Prod.fst ++ [k] := by
  induction m with
  | nil => simp [assocUpdate]
  | cons p t ih =>
      by_cases hp : p.1 = k
      · simp [assocUpdate, hp]
      · rw [show assocUpdate (p :: t) k v = p :: assocUpdate t k v by
          simp [assocUpdate, hp]]
        simp only [List.map_cons, ih, List.mem_cons]
        by_cases hk : k ∈ t.map Prod.fst <;>
          simp [hk, Ne.symm hp]

/-- Dict assignment preserves uniqueness of the keys. -/
theorem nodup_keys_assocUpdate (m : List (String × Option Nat)) (k : String) (v : Option Nat)
    (h : (m.map Prod.fst).Nodup) : ((assocUpdate m k v).map Prod.fst).Nodup := by
  rw [keys_assocUpdate]
  split
  · exact h
  · rename_i hk
    simp [List.nodup_append, h, hk]

/-- Folding dict assignments preserves uniqueness of the keys. -/
theorem nodup_keys_foldl_assocUpdate (l : List NamedRow) (m : List (String × Option Nat))
    (h : (m.map Prod.fst).Nodup) :
    ((l.foldl (fun acc row => assocUpdate acc row.name (some row.id)) m).map Prod.fst).Nodup := by
  induction l generalizing m with
  | nil => exact h
  | cons a t ih => exact ih _ (nodup_keys_assocUpdate _ _ _ h)

/-- After folding the dict assignments of a row list over a starting map,
a name resolves to the id of the LAST row with that name in iteration
order; a name no row carries keeps its lookup in the starting map. -/
theorem lookup_foldl_assocUpdate (l : List NamedRow) (m : List (String × Option Nat))
    (name : String) :
    (l.foldl (fun acc row => assocUpdate acc row.name (some row.id)) m).lookup name =
      match (l.filter (fun r => r.name == name)).getLast? with
      | some r => some (some r.id)
      | none => m.lookup name := by
  induction l generalizing m with
  | nil => simp
  | cons a t ih =>
      simp only [List.foldl_cons]
      rw [ih]
      by_cases ha : a.name = name
      · rw [List.filter_cons_of_pos (by simp [ha])]
        rcases hcases : t.filter (fun r => r.name == name) with _ | ⟨b, u⟩
        · rw [hcases]
          simp only [List.getLast?_nil, List.getLast?_singleton]
          rw [← ha, lookup_assocUpdate_self]
        · rw [hcases, List.getLast?_cons_cons,
            List.getLast?_eq_getLast (b :: u) (by simp)]
      · rw [List.filter_cons_of_neg (by simp [ha])]
        cases hft : (t.filter (fun r => r.name == name)).getLast? with
        | some r => rfl
        | none => exact lookup_assocUpdate_ne m a.name (some a.id) name (fun hh => ha hh.symm)

/-- Claim C10: the display-name-to-identifier mapping contains exactly one
entry per distinct name (its keys are free of duplicates), and a non-placeholder
name resolves to the identifier of the row iterated LAST among the rows
sharing that name in the query's result order — later rows overwrite
earlier ones, so the other duplicate rows' identifiers are no longer
reachable through name resolution. -/
theorem C10_duplicate_names_last_wins (rows : List NamedRow) (ph : String) :
    ((get_options true rows ph).map Prod.fst).Nodup ∧
    (∀ name : String, name ≠ ph →
      (get_options true rows ph).lookup name =
        (((rows.mergeSort byNameLE).filter (fun r => r.name == name)).getLast?).map
          (fun r => some r.id)) := by
  constructor
  · unfold get_options
    rw [if_neg (by simp)]
    exact nodup_keys_foldl_assocUpdate _ _ (by simp)
  · intro name hname
    unfold get_options
    rw [if_neg (by simp)]
    rw [lookup_foldl_assocUpdate]
    cases hft : ((rows.mergeSort byNameLE).filter (fun r => r.name == name)).getLast? with
    | some r => simp
    | none =>
        have hb : (name == ph) = false := beq_eq_false_iff_ne.mpr hname
        simp [List.lookup_cons, hb]

/-- Two rows sharing the display name "Acme" with distinct identifiers. -/
def dupRows : List NamedRow := [⟨1, "Acme"⟩, ⟨2, "Acme"⟩]

/-- Witness for C10 at the concrete duplicate-name snapshot `dupRows`:
only the later row's identifier (2) remains reachable through "Acme". -/
theorem C10_duplicate_names_last_wins_witness :
    ((get_options true dupRows "--- Select Company ---").map Prod.fst).Nodup ∧
    (get_options true dupRows "--- Select Company ---").lookup "Acme" = some (some 2) := by
  obtain ⟨h1, h2⟩ := C10_duplicate_names_last_wins dupRows "--- Select Company ---"
  refine ⟨h1, ?_⟩
  rw [h2 "Acme" (by decide)]
  rw [show dupRows.mergeSort byNameLE = dupRows from
    List.mergeSort_of_sorted (by simp [dupRows, byNameLE])]
  decide

/-- The per-page session state driving the Job edit/delete flow
(app.py lines 292-293): the id currently selected for edit and the id
pending delete confirmation. -/
structure Session where
  selected_job_id_for_edit : Option Nat
  confirm_delete_job_id : Option Nat
  deriving DecidableEq, Repr

/-- `get_job_details` (app.py lines 88-94): `SELECT ... WHERE j.job_id = %s`
returns the unique matching row or nothing.  The LEFT-JOINed company display
name is projected away here; no claim mentions it. -/
def get_job_details (db : DB) (job_id : Nat) : Option JobRow :=
  db.jobs.find? (fun j => j.job_id == job_id)

/-- User actions of the two-step delete flow on the Job page. -/
inductive DeleteEvent where
  | request (job_id : Nat)
  | cancel
  deriving DecidableEq, Repr

/-- One click of the delete flow (app.py lines 469-481):
"Request to Delete Job ID n" stores that id as the pending delete,
unconditionally overwriting any previously pending id; "Cancel Deletion"
clears the pending id.  Neither touches the database. -/
def deleteFlowStep : DB × Session → DeleteEvent → DB × Session
  | (db, s), .request j => (db, { s with confirm_delete_job_id := some j })
  | (db, s), .cancel => (db, { s with confirm_delete_job_id := none })

/-- Run a sequence of delete-flow clicks. -/
def runDeleteEvents (db : DB) (s : Session) (evts : List DeleteEvent) : DB × Session :=
  evts.foldl deleteFlowStep (db, s)

/-- Claim C5: the pending deletion is stored against exactly one record id
at a time.  Requesting delete on A and then on B discards A's pending
state and puts B in PendingConfirmation, with the stored rows untouched
(so A is not deleted); cancelling afterwards returns to Idle with the
stored rows still exactly as before. -/
theorem C5_pending_delete_single_slot (db : DB) (s : Session) (a b : Nat) :
    runDeleteEvents db s [.request a, .request b] =
      (db, { s with confirm_delete_job_id := some b }) ∧
    runDeleteEvents db s [.request a, .request b, .cancel] =
      (db, { s with confirm_delete_job_id := none }) :=
  ⟨rfl, rfl⟩

/-- What the page reports after a confirm-delete rerun. -/
inductive ConfirmOutcome where
  | deleted
  | dbError
  | recordGone
  | notPending
  | nothingSelected
  deriving DecidableEq, Repr

/-- The rerun triggered by clicking "YES, Delete Now" (app.py
lines 435-483, delete path): the page re-fetches the selected job.  If it
no longer loads, it warns "Could not load selected job. It might have been
deleted." and clears only the edit selection (line 483).  If it loads and
its id equals the pending delete id, `delete_job_record` runs; on success
both the edit selection and the pending id are cleared (lines 476-478), on
a query error the session is left as it was. -/
def confirmDeleteRerun (db : DB) (s : Session) (fails : Bool) :
    DB × Session × ConfirmOutcome :=
  match s.selected_job_id_for_edit with
  | none => (db, s, ConfirmOutcome.nothingSelected)
  | some sel =>
    match get_job_details db sel with
    | none => (db, { s with selected_job_id_for_edit := none }, ConfirmOutcome.recordGone)
    | some dets =>
      if s.confirm_delete_job_id = some dets.job_id then
        match delete_job_record db fails dets.job_id with
        | (db1, true) => (db1, ⟨none, none⟩, ConfirmOutcome.deleted)
        | (db1, false) => (db1, s, ConfirmOutcome.dbError)
      else (db, s, ConfirmOutcome.notPending)

/-- Claim C7, counterexample: confirming the delete of record 1 when no
job 1 exists leaves `confirm_delete_job_id` still set to 1 — the state
machine is NOT returned to Idle (Idle being a cleared pending id, the
representation C5's sources fix). -/
theorem C7_counterexample :
    (confirmDeleteRerun ⟨[], [], [], [], 1, 1, 1, 1, 0⟩ ⟨some 1, some 1⟩
        false).2.1.confirm_delete_job_id = some 1 := rfl

/-- Claim C7, amended: when the confirm step targets a record id that no
longer loads, the operation is a soft failure rather than a crash: the
stored state is unchanged, the page reports the record as already gone
("Could not load selected job. It might have been deleted.") and clears
the edit selection — but the pending-delete id is left in place rather
than being reset to Idle (it merely no longer matches any loadable
record, so no confirmation prompt is rendered for it). -/
theorem C7_missing_record_soft_failure (db : DB) (s : Session) (sel : Nat)
    (fails : Bool) (hsel : s.selected_job_id_for_edit = some sel)
    (hmissing : ∀ j ∈ db.jobs, j.job_id ≠ sel) :
    confirmDeleteRerun db s fails =
      (db, { s with selected_job_id_for_edit := none }, ConfirmOutcome.recordGone) := by
  have hg : get_job_details db sel = none :=
    List.find?_eq_none.mpr (fun j hj => by simp [hmissing j hj])
  simp only [confirmDeleteRerun, hsel, hg]

/-- Witness for C7's amended theorem: an empty store and a session whose
selected and pending id is 1. -/
theorem C7_missing_record_soft_failure_witness :
    confirmDeleteRerun ⟨[], [], [], [], 1, 1, 1, 1, 0⟩ ⟨some 1, some 1⟩ false =
      (⟨[], [], [], [], 1, 1, 1, 1, 0⟩, ⟨none, some 1⟩, ConfirmOutcome.recordGone) :=
  C7_missing_record_soft_failure _ _ 1 false rfl (by simp)

/-- The re-query after an inline company insert (app.py lines 399-403):
`SELECT company_id FROM companies WHERE company_name = %s ORDER BY
company_id DESC LIMIT 1` — the greatest identifier among the rows carrying
exactly that name (identifiers are unique, so DESC LIMIT 1 is the max). -/
def requeryCompanyId (db : DB) (name : String) : Option Nat :=
  ((db.companies.filter (fun c => c.company_name == name)).map
    (fun c => c.company_id)).max?

/-- The Add-Job submit handler when the user typed a brand-new company name
(app.py lines 389-418, new-company branch): `add_new_company` runs (and
commits) first; if it succeeds, the new id is re-queried by name; if that
succeeds too and the title is present and the id truthy, `add_new_job`
runs.  A failure at any step sets `is_valid_j = False`, skipping the job
insert but undoing nothing already committed. -/
def tab_add_job_new_company (db : DB)
    (failCompanyInsert failRequery failJobInsert : Bool)
    (new_comp_name title loc stat url notes_val : String) (date_f : Option Nat) : DB :=
  match add_new_company db failCompanyInsert new_comp_name "" "" "" "" with
  | (db1, false) => db1
  | (db1, true) =>
    if failRequery then db1
    else
      match requeryCompanyId db1 new_comp_name with
      | none => db1
      | some cid =>
          if title = "" ∨ cid = 0 then db1
          else (add_new_job db1 failJobInsert title (some cid) loc stat url notes_val date_f).1

/-- Claim C3, counterexample: starting from an empty store, typing company
"Acme" with the insert succeeding and the re-query failing leaves a
committed Company row behind — no Job row appears, but the stored state is
NOT as it was before the flow started. -/
theorem C3_counterexample :
    (tab_add_job_new_company ⟨[], [], [], [], 1, 1, 1, 1, 0⟩ false true false
        "Acme" "Engineer" "" "Applied" "" "" none).companies =
      [⟨1, "Acme", "", "", "", "", 0⟩] ∧
    (tab_add_job_new_company ⟨[], [], [], [], 1, 1, 1, 1, 0⟩ false true false
        "Acme" "Engineer" "" "Applied" "" "" none).jobs = [] ∧
    (tab_add_job_new_company ⟨[], [], [], [], 1, 1, 1, 1, 0⟩ false true false
        "Acme" "Engineer" "" "Applied" "" "" none) ≠ ⟨[], [], [], [], 1, 1, 1, 1, 0⟩ := by
  decide

/-- Claim C3, amended: in the typed-new-company Job-creation flow, a
failure of the Company insert or of the follow-up id re-query always
aborts the Job insert — no new Job row ever appears.  If the Company
insert itself fails the stored state is fully unchanged; but if the insert
succeeds and the re-query fails, the freshly committed Company row remains
— the abort is only without partial effect at the Job level. -/
theorem C3_abort_skips_job_insert (db : DB) (failRequery failJobInsert : Bool)
    (new_comp_name title loc stat url notes_val : String) (date_f : Option Nat) :
    tab_add_job_new_company db true failRequery failJobInsert
      new_comp_name title loc stat url notes_val date_f = db ∧
    (tab_add_job_new_company db false true failJobInsert
      new_comp_name title loc stat url notes_val date_f).jobs = db.jobs ∧
    (new_comp_name ≠ "" →
      (tab_add_job_new_company db false true failJobInsert
        new_comp_name title loc stat url notes_val date_f).companies =
        db.companies ++ [⟨db.nextCompanyId, new_comp_name, "", "", "", "", db.clock⟩]) := by
  by_cases hname : new_comp_name = "" <;>
    simp [tab_add_job_new_company, add_new_company, hname, txnWrite,
      execStmt, beginTxn, commitTxn, rollbackTxn]

/-- Witness for C3's amended theorem at the empty store. -/
theorem C3_abort_skips_job_insert_witness :
    tab_add_job_new_company ⟨[], [], [], [], 1, 1, 1, 1, 0⟩ true true false
      "Acme" "Engineer" "" "Applied" "" "" none = ⟨[], [], [], [], 1, 1, 1, 1, 0⟩ ∧
    (tab_add_job_new_company ⟨[], [], [], [], 1, 1, 1, 1, 0⟩ false true false
      "Acme" "Engineer" "" "Applied" "" "" none).jobs = [] ∧
    (tab_add_job_new_company ⟨[], [], [], [], 1, 1, 1, 1, 0⟩ false true false
      "Acme" "Engineer" "" "Applied" "" "" none).companies =
      [⟨1, "Acme", "", "", "", "", 0⟩] := by
  obtain ⟨h1, h2, h3⟩ := C3_abort_skips_job_insert ⟨[], [], [], [], 1, 1, 1, 1, 0⟩
    true false "Acme" "Engineer" "" "Applied" "" "" none
  exact ⟨h1, h2, by simpa using h3 (by decide)⟩

/-- The maximum of a list closed by appending a strictly dominating element
is that element. -/
theorem max?_append_singleton_of_lt (l : List Nat) (n : Nat)
    (h : ∀ x ∈ l, x < n) : (l ++ [n]).max? = some n := by
  induction l with
  | nil => rfl
  | cons a t ih =>
      rw [List.cons_append, List.max?_cons, ih (fun x hx => h x (by simp [hx]))]
      simp [Nat.max_eq_right (le_of_lt (h a (by simp)))]

/-- After appending a company row named `name` whose identifier dominates
every earlier identifier, the by-name id re-query returns exactly the new
row's identifier. -/
theorem requeryCompanyId_last_insert (db : DB) (name : String) (n : Nat)
    (old : List CompanyRow) (row : CompanyRow)
    (hcs : db.companies = old ++ [row])
    (hrowname : row.company_name = name) (hrowid : row.company_id = n)
    (hold : ∀ c ∈ old, c.company_id < n) :
    requeryCompanyId db name = some n := by
  unfold requeryCompanyId
  rw [hcs, List.filter_append, List.filter_cons,
    if_pos (by simp [hrowname])]
  simp only [List.filter_nil, List.map_append, List.map_cons, List.map_nil, hrowid]
  exact max?_append_singleton_of_lt _ n
    (fun x hx => by
      obtain ⟨c, hc, rfl⟩ := List.mem_map.mp hx
      exact hold c (List.mem_filter.mp hc).1)

/-- The shape of the typed-new-company flow when every step succeeds:
exactly one Company row is appended (fresh id, empty optional fields) and
exactly one Job row is appended referencing that id. -/
theorem tab_add_job_new_company_success (db : DB)
    (name title loc stat url notes_val : String) (date_f : Option Nat)
    (hname : name ≠ "") (htitle : title ≠ "") (hpos : 0 < db.nextCompanyId)
    (hids : ∀ c ∈ db.companies, c.company_id < db.nextCompanyId) :
    tab_add_job_new_company db false false false name title loc stat url notes_val date_f =
      { db with
        companies := db.companies ++ [⟨db.nextCompanyId, name, "", "", "", "", db.clock⟩],
        jobs := db.jobs ++
          [⟨db.nextJobId, title, db.nextCompanyId, loc, stat, url, notes_val, date_f,
            db.clock + 1⟩],
        nextCompanyId := db.nextCompanyId + 1,
        nextJobId := db.nextJobId + 1,
        clock := db.clock + 2 } := by
  have hc : add_new_company db false name "" "" "" "" =
      ({ db with
         companies := db.companies ++ [⟨db.nextCompanyId, name, "", "", "", "", db.clock⟩],
         nextCompanyId := db.nextCompanyId + 1,
         clock := db.clock + 1 }, true) := by
    simp [add_new_company, hname, txnWrite, execStmt, beginTxn, commitTxn]
  have hrq : requeryCompanyId
      { db with
        companies := db.companies ++ [⟨db.nextCompanyId, name, "", "", "", "", db.clock⟩],
        nextCompanyId := db.nextCompanyId + 1,
        clock := db.clock + 1 } name = some db.nextCompanyId :=
    requeryCompanyId_last_insert _ name db.nextCompanyId db.companies
      ⟨db.nextCompanyId, name, "", "", "", "", db.clock⟩ rfl rfl rfl hids
  simp only [tab_add_job_new_company, hc, hrq, Bool.false_eq_true, if_false]
  rw [if_neg (by push_neg; exact ⟨htitle, by omega⟩)]
  simp [add_new_job, htitle, txnWrite, execStmt, beginTxn, commitTxn]

/-- Claim C4: when the typed-new-company Job-creation flow succeeds,
exactly one new Company row is inserted and the new Job's company field
references that row's identifier; running the same flow a second time with
the same name creates a second Company row with the same name but a
distinct identifier (no deduplication), referenced by the second Job. -/
theorem C4_new_company_no_dedup (db : DB)
    (name title loc stat url notes_val : String) (date_f : Option Nat)
    (hname : name ≠ "") (htitle : title ≠ "") (hpos : 0 < db.nextCompanyId)
    (hids : ∀ c ∈ db.companies, c.company_id < db.nextCompanyId) :
    (tab_add_job_new_company db false false false name title loc stat url notes_val
        date_f).companies =
      db.companies ++ [⟨db.nextCompanyId, name, "", "", "", "", db.clock⟩] ∧
    (tab_add_job_new_company db false false false name title loc stat url notes_val
        date_f).jobs =
      db.jobs ++ [⟨db.nextJobId, title, db.nextCompanyId, loc, stat, url, notes_val,
        date_f, db.clock + 1⟩] ∧
    (tab_add_job_new_company
        (tab_add_job_new_company db false false false name title loc stat url notes_val date_f)
        false false false name title loc stat url notes_val date_f).companies =
      db.companies ++ [⟨db.nextCompanyId, name, "", "", "", "", db.clock⟩,
        ⟨db.nextCompanyId + 1, name, "", "", "", "", db.clock + 2⟩] ∧
    (tab_add_job_new_company
        (tab_add_job_new_company db false false false name title loc stat url notes_val date_f)
        false false false name title loc stat url notes_val date_f).jobs =
      db.jobs ++ [⟨db.nextJobId, title, db.nextCompanyId, loc, stat, url, notes_val,
          date_f, db.clock + 1⟩,
        ⟨db.nextJobId + 1, title, db.nextCompanyId + 1, loc, stat, url, notes_val,
          date_f, db.clock + 3⟩] ∧
    db.nextCompanyId ≠ db.nextCompanyId + 1 := by
  have h1 := tab_add_job_new_company_success db name title loc stat url notes_val date_f
    hname htitle hpos hids
  have h2 := tab_add_job_new_company_success
    (tab_add_job_new_company db false false false name title loc stat url notes_val date_f)
    name title loc stat url notes_val date_f hname htitle
    (by rw [h1]; exact Nat.lt_succ_of_lt hpos)
    (by
      rw [h1]
      intro c hc
      simp only [List.mem_append, List.mem_singleton] at hc
      rcases hc with hc | rfl
      · exact Nat.lt_succ_of_lt (hids c hc)
      · exact Nat.lt_succ_self _)
  rw [h2, h1]
  refine ⟨rfl, rfl, by simp, by simp, by omega⟩

/-- Witness for C4 at the empty store with company "Acme" and job
"Engineer". -/
theorem C4_new_company_no_dedup_witness :
    (tab_add_job_new_company ⟨[], [], [], [], 1, 1, 1, 1, 0⟩ false false false
        "Acme" "Engineer" "" "Applied" "" "" none).companies =
      [⟨1, "Acme", "", "", "", "", 0⟩] ∧
    (tab_add_job_new_company ⟨[], [], [], [], 1, 1, 1, 1, 0⟩ false false false
        "Acme" "Engineer" "" "Applied" "" "" none).jobs =
      [⟨1, "Engineer", 1, "", "Applied", "", "", none, 1⟩] ∧
    (tab_add_job_new_company
        (tab_add_job_new_company ⟨[], [], [], [], 1, 1, 1, 1, 0⟩ false false false
          "Acme" "Engineer" "" "Applied" "" "" none)
        false false false "Acme" "Engineer" "" "Applied" "" "" none).companies =
      [⟨1, "Acme", "", "", "", "", 0⟩, ⟨2, "Acme", "", "", "", "", 2⟩] ∧
    (tab_add_job_new_company
        (tab_add_job_new_company ⟨[], [], [], [], 1, 1, 1, 1, 0⟩ false false false
          "Acme" "Engineer" "" "Applied" "" "" none)
        false false false "Acme" "Engineer" "" "Applied" "" "" none).jobs =
      [⟨1, "Engineer", 1, "", "Applied", "", "", none, 1⟩,
       ⟨2, "Engineer", 2, "", "Applied", "", "", none, 3⟩] ∧
    (1 : Nat) ≠ 2 := by
  have h := C4_new_company_no_dedup ⟨[], [], [], [], 1, 1, 1, 1, 0⟩
    "Acme" "Engineer" "" "Applied" "" "" none (by decide) (by decide)
    (by decide) (by simp)
  simpa using h

/-- SQL `x ASC` on integers/timestamps. -/
def natAsc (x y : Nat) : Bool := decide (x ≤ y)

/-- SQL `x DESC` on integers/timestamps. -/
def natDesc (x y : Nat) : Bool := decide (y ≤ x)

/-- SQL `x ASC` on text. -/
def strAsc (x y : String) : Bool := decide (x ≤ y)

/-- SQL `x ASC NULLS LAST` on a nullable integer/timestamp column. -/
def optNatAscNullsLast : Option Nat → Option Nat → Bool
  | none, none => true
  | none, some _ => false
  | some _, none => true
  | some x, some y => decide (x ≤ y)

/-- SQL `x ASC NULLS LAST` on a nullable text column (text order, so e.g.
"High" < "Low" < "Medium" alphabetically). -/
def optStrAscNullsLast : Option String → Option String → Bool
  | none, none => true
  | none, some _ => false
  | some _, none => true
  | some x, some y => decide (x ≤ y)

/-- SQL `x DESC NULLS LAST` on a nullable text column. -/
def optStrDescNullsLast : Option String → Option String → Bool
  | none, none => true
  | none, some _ => false
  | some _, none => true
  | some x, some y => decide (y ≤ x)

/-- One `ORDER BY` level: compare by the key's comparator, falling through
to the remaining levels when the keys are equal. -/
def lexBy {α κ : Type} [DecidableEq κ] (k : α → κ) (c : κ → κ → Bool)
    (rest : α → α → Bool) (a b : α) : Bool :=
  if k a = k b then rest a b else c (k a) (k b)

/-- A lexicographic level is transitive when its key comparator is
transitive and antisymmetric and the remaining levels are transitive. -/
theorem lexBy_trans {α κ : Type} [DecidableEq κ] {k : α → κ} {c : κ → κ → Bool}
    {rest : α → α → Bool}
    (hct : ∀ x y z, c x y = true → c y z = true → c x z = true)
    (hca : ∀ x y, c x y = true → c y x = true → x = y)
    (hrt : ∀ a b d, rest a b = true → rest b d = true → rest a d = true) :
    ∀ a b d, lexBy k c rest a b = true → lexBy k c rest b d = true →
      lexBy k c rest a d = true := by
  intro a b d hab hbd
  unfold lexBy at hab hbd ⊢
  by_cases h1 : k a = k b <;> by_cases h2 : k b = k d
  · rw [if_pos h1] at hab
    rw [if_pos h2] at hbd
    rw [if_pos (h1.trans h2)]
    exact hrt a b d hab hbd
  · rw [if_pos h1] at hab
    rw [if_neg h2] at hbd
    rw [if_neg (fun hh => h2 (h1.symm.trans hh)), h1]
    exact hbd
  · rw [if_neg h1] at hab
    rw [if_pos h2] at hbd
    rw [if_neg (fun hh => h1 (hh.trans h2.symm)), ← h2]
    exact hab
  · rw [if_neg h1] at hab
    rw [if_neg h2] at hbd
    by_cases h3 : k a = k d
    · rw [← h3] at hbd
      exact absurd (hca _ _ hab hbd) h1
    · rw [if_neg h3]
      exact hct _ _ _ hab hbd

/-- A lexicographic level is total when its key comparator and the
remaining levels are total. -/
theorem lexBy_total {α κ : Type} [DecidableEq κ] {k : α → κ} {c : κ → κ → Bool}
    {rest : α → α → Bool}
    (hc : ∀ x y, c x y || c y x) (hr : ∀ a b, rest a b || rest b a) :
    ∀ a b, lexBy k c rest a b || lexBy k c rest b a := by
  intro a b
  unfold lexBy
  by_cases h : k a = k b
  · rw [if_pos h, if_pos h.symm]
    exact hr a b
  · rw [if_neg h, if_neg (fun hh => h hh.symm)]
    exact hc _ _

/-- `natAsc` is transitive. -/
theorem natAsc_trans : ∀ x y z, natAsc x y = true → natAsc y z = true → natAsc x z = true := by
  intro x y z hxy hyz
  simp only [natAsc, decide_eq_true_eq] at *
  omega

/-- `natAsc` is total. -/
theorem natAsc_total : ∀ x y, natAsc x y || natAsc y x := by
  intro x y
  simp only [natAsc, Bool.or_eq_true, decide_eq_true_eq]
  omega

/-- `natDesc` is transitive. -/
theorem natDesc_trans : ∀ x y z, natDesc x y = true → natDesc y z = true → natDesc x z = true := by
  intro x y z hxy hyz
  simp only [natDesc, decide_eq_true_eq] at *
  omega

/-- `natDesc` is total. -/
theorem natDesc_total : ∀ x y, natDesc x y || natDesc y x := by
  intro x y
  simp only [natDesc, Bool.or_eq_true, decide_eq_true_eq]
  omega

/-- `strAsc` is transitive. -/
theorem strAsc_trans : ∀ x y z, strAsc x y = true → strAsc y z = true → strAsc x z = true := by
  intro x y z hxy hyz
  simp only [strAsc, decide_eq_true_eq] at *
  exact le_trans hxy hyz

/-- `strAsc` is antisymmetric. -/
theorem strAsc_antisymm : ∀ x y, strAsc x y = true → strAsc y x = true → x = y := by
  intro x y hxy hyx
  simp only [strAsc, decide_eq_true_eq] at *
  exact le_antisymm hxy hyx

/-- `strAsc` is total. -/
theorem strAsc_total : ∀ x y, strAsc x y || strAsc y x := by
  intro x y
  simp only [strAsc, Bool.or_eq_true, decide_eq_true_eq]
  exact le_total x y

/-- `optNatAscNullsLast` is transitive. -/
theorem optNatAscNullsLast_trans : ∀ x y z, optNatAscNullsLast x y = true →
    optNatAscNullsLast y z = true → optNatAscNullsLast x z = true := by
  intro x y z hxy hyz
  cases x <;> cases y <;> cases z <;> simp_all [optNatAscNullsLast] <;> omega

/-- `optNatAscNullsLast` is antisymmetric. -/
theorem optNatAscNullsLast_antisymm : ∀ x y, optNatAscNullsLast x y = true →
    optNatAscNullsLast y x = true → x = y := by
  intro x y hxy hyx
  cases x <;> cases y <;> simp_all [optNatAscNullsLast] <;> omega

/-- `optNatAscNullsLast` is total. -/
theorem optNatAscNullsLast_total : ∀ x y, optNatAscNullsLast x y || optNatAscNullsLast y x := by
  intro x y
  cases x <;> cases y <;> simp [optNatAscNullsLast] <;> omega

/-- `optStrAscNullsLast` is transitive. -/
theorem optStrAscNullsLast_trans : ∀ x y z, optStrAscNullsLast x y = true →
    optStrAscNullsLast y z = true → optStrAscNullsLast x z = true := by
  intro x y z hxy hyz
  match x, y, z with
  | none, none, _ => exact hyz
  | none, some _, _ => exact absurd hxy (by simp [optStrAscNullsLast])
  | some _, _, none => rfl
  | some _, none, some _ => exact absurd hyz (by simp [optStrAscNullsLast])
  | some a, some b, some c =>
      exact decide_eq_true
        (le_trans (of_decide_eq_true hxy) (of_decide_eq_true hyz))

/-- `optStrAscNullsLast` is antisymmetric. -/
theorem optStrAscNullsLast_antisymm : ∀ x y, optStrAscNullsLast x y = true →
    optStrAscNullsLast y x = true → x = y := by
  intro x y hxy hyx
  match x, y with
  | none, none => rfl
  | none, some _ => exact absurd hxy (by simp [optStrAscNullsLast])
  | some _, none => exact absurd hyx (by simp [optStrAscNullsLast])
  | some a, some b =>
      exact congrArg some (le_antisymm (of_decide_eq_true hxy) (of_decide_eq_true hyx))

/-- `optStrAscNullsLast` is total. -/
theorem optStrAscNullsLast_total : ∀ x y, optStrAscNullsLast x y || optStrAscNullsLast y x := by
  intro x y
  match x, y with
  | none, none => rfl
  | none, some _ => rfl
  | some _, none => rfl
  | some a, some b =>
      rcases le_total a b with h | h
      · simp [optStrAscNullsLast, h]
      · simp [optStrAscNullsLast, h]

/-- `optStrDescNullsLast` is transitive. -/
theorem optStrDescNullsLast_trans : ∀ x y z, optStrDescNullsLast x y = true →
    optStrDescNullsLast y z = true → optStrDescNullsLast x z = true := by
  intro x y z hxy hyz
  match x, y, z with
  | none, none, _ => exact hyz
  | none, some _, _ => exact absurd hxy (by simp [optStrDescNullsLast])
  | some _, _, none => rfl
  | some _, none, some _ => exact absurd hyz (by simp [optStrDescNullsLast])
  | some a, some b, some c =>
      exact decide_eq_true
        (le_trans (of_decide_eq_true hyz) (of_decide_eq_true hxy))

/-- `optStrDescNullsLast` is antisymmetric. -/
theorem optStrDescNullsLast_antisymm : ∀ x y, optStrDescNullsLast x y = true →
    optStrDescNullsLast y x = true → x = y := by
  intro x y hxy hyx
  match x, y with
  | none, none => rfl
  | none, some _ => exact absurd hxy (by simp [optStrDescNullsLast])
  | some _, none => exact absurd hyx (by simp [optStrDescNullsLast])
  | some a, some b =>
      exact congrArg some (le_antisymm (of_decide_eq_true hyx) (of_decide_eq_true hxy))

/-- `optStrDescNullsLast` is total. -/
theorem optStrDescNullsLast_total : ∀ x y, optStrDescNullsLast x y || optStrDescNullsLast y x := by
  intro x y
  match x, y with
  | none, none => rfl
  | none, some _ => rfl
  | some _, none => rfl
  | some a, some b =>
      rcases le_total a b with h | h
      · simp [optStrDescNullsLast, h]
      · simp [optStrDescNullsLast, h]

/-- The LEFT-JOINed company display name for a company id (absent when the
id resolves to no row). -/
def joinCompanyName (db : DB) (cid : Nat) : Option String :=
  (db.companies.find? (fun c => c.company_id == cid)).map (fun c => c.company_name)

/-- Comparator of `get_all_companies`: `ORDER BY company_name ASC`. -/
def companyLE (a b : CompanyRow) : Bool := strAsc a.company_name b.company_name

/-- `get_all_companies` (app.py lines 174-180):
`SELECT * FROM companies ORDER BY company_name ASC`. -/
def get_all_companies (db : DB) : List CompanyRow :=
  db.companies.mergeSort companyLE

/-- Comparator of `get_all_jobs`: `ORDER BY j.created_at DESC`. -/
def jobCreatedDesc (a b : JobRow × Option String) : Bool :=
  natDesc a.1.created_at b.1.created_at

/-- `get_all_jobs` (app.py lines 75-86): jobs LEFT JOIN companies for the
company display name, `ORDER BY j.created_at DESC`. -/
def get_all_jobs (db : DB) : List (JobRow × Option String) :=
  (db.jobs.map (fun j => (j, joinCompanyName db j.company_id))).mergeSort jobCreatedDesc

/-- Comparator of `get_all_recruiters`: `ORDER BY r.name ASC`. -/
def recruiterNameAsc (a b : RecruiterRow × Option String) : Bool :=
  strAsc a.1.name b.1.name

/-- `get_all_recruiters` (app.py lines 140-151): recruiters LEFT JOIN
companies for the agency display name, `ORDER BY r.name ASC`. -/
def get_all_recruiters (db : DB) : List (RecruiterRow × Option String) :=
  (db.recruiters.map (fun r => (r, r.agency_company_id.bind (joinCompanyName db)))).mergeSort
    recruiterNameAsc

/-- A task row LEFT-JOINed with its optional job title, recruiter name and
company display name. -/
abbrev TaskJoined := TaskRow × Option String × Option String × Option String

/-- The three LEFT JOINs of the task queries. -/
def taskJoin (db : DB) (t : TaskRow) : TaskJoined :=
  (t,
   t.job_id.bind (fun jid =>
     (db.jobs.find? (fun j => j.job_id == jid)).map (fun j => j.job_title)),
   t.recruiter_id.bind (fun rid =>
     (db.recruiters.find? (fun r => r.recruiter_id == rid)).map (fun r => r.name)),
   t.company_id.bind (joinCompanyName db))

/-- Comparator of `get_all_tasks` (app.py line 227): `ORDER BY
t.due_date ASC NULLS LAST, t.status ASC, t.priority DESC NULLS LAST,
t.created_at DESC`. -/
def allTasksLE : TaskJoined → TaskJoined → Bool :=
  lexBy (fun t => t.1.due_date) optNatAscNullsLast
    (lexBy (fun t => t.1.status) strAsc
      (lexBy (fun t => t.1.priority) optStrDescNullsLast
        (fun a b => natDesc a.1.created_at b.1.created_at)))

/-- `get_all_tasks` (app.py lines 213-230). -/
def get_all_tasks (db : DB) : List TaskJoined :=
  (db.tasks.map (taskJoin db)).mergeSort allTasksLE

/-- Comparator of `get_upcoming_tasks` (app.py line 207): `ORDER BY
t.due_date ASC NULLS LAST, t.priority ASC NULLS LAST, t.created_at ASC`. -/
def upcomingLE : TaskJoined → TaskJoined → Bool :=
  lexBy (fun t => t.1.due_date) optNatAscNullsLast
    (lexBy (fun t => t.1.priority) optStrAscNullsLast
      (fun a b => natAsc a.1.created_at b.1.created_at))

/-- The status filter of `get_upcoming_tasks` (app.py line 206):
`WHERE t.status NOT IN ('Completed', 'Cancelled')`. -/
def upcomingFilter (t : TaskRow) : Bool :=
  !(t.status == "Completed" || t.status == "Cancelled")

/-- `get_upcoming_tasks` (app.py lines 195-211): filter out closed tasks,
join, order, `LIMIT count`. -/
def get_upcoming_tasks (db : DB) (count : Nat) : List TaskJoined :=
  (((db.tasks.filter upcomingFilter).map (taskJoin db)).mergeSort upcomingLE).take count

/-- `upcomingLE` is transitive. -/
theorem upcomingLE_trans : ∀ a b d : TaskJoined, upcomingLE a b = true →
    upcomingLE b d = true → upcomingLE a d = true :=
  lexBy_trans optNatAscNullsLast_trans optNatAscNullsLast_antisymm
    (lexBy_trans optStrAscNullsLast_trans optStrAscNullsLast_antisymm
      (fun _ _ _ => natAsc_trans _ _ _))

/-- `upcomingLE` is total. -/
theorem upcomingLE_total : ∀ a b : TaskJoined, upcomingLE a b || upcomingLE b a :=
  lexBy_total optNatAscNullsLast_total
    (lexBy_total optStrAscNullsLast_total (fun _ _ => natAsc_total _ _))

/-- `allTasksLE` is transitive. -/
theorem allTasksLE_trans : ∀ a b d : TaskJoined, allTasksLE a b = true →
    allTasksLE b d = true → allTasksLE a d = true :=
  lexBy_trans optNatAscNullsLast_trans optNatAscNullsLast_antisymm
    (lexBy_trans strAsc_trans strAsc_antisymm
      (lexBy_trans optStrDescNullsLast_trans optStrDescNullsLast_antisymm
        (fun _ _ _ => natDesc_trans _ _ _)))

/-- `allTasksLE` is total. -/
theorem allTasksLE_total : ∀ a b : TaskJoined, allTasksLE a b || allTasksLE b a :=
  lexBy_total optNatAscNullsLast_total
    (lexBy_total strAsc_total
      (lexBy_total optStrDescNullsLast_total (fun _ _ => natDesc_total _ _)))

/-- Claim C6: the upcoming-tasks query never returns a task whose status
is Completed or Cancelled, regardless of its due date; it returns at most
`count` rows (exactly `min count` of the number of open tasks, so nothing
open is dropped below the limit); every returned row is a stored task; and
the result is sorted by due date ascending with absent due dates last,
then priority ascending with absent priorities last, then creation time
ascending. -/
theorem C6_upcoming_tasks_query (db : DB) (count : Nat) :
    (∀ r ∈ get_upcoming_tasks db count,
        r.1.status ≠ "Completed" ∧ r.1.status ≠ "Cancelled" ∧ r.1 ∈ db.tasks) ∧
    (get_upcoming_tasks db count).length =
      min count (db.tasks.filter upcomingFilter).length ∧
    List.Pairwise (fun a b => upcomingLE a b = true) (get_upcoming_tasks db count) := by
  refine ⟨?_, ?_, ?_⟩
  · intro r hr
    have hr1 : r ∈ ((db.tasks.filter upcomingFilter).map (taskJoin db)).mergeSort upcomingLE :=
      List.mem_of_mem_take hr
    have hr2 : r ∈ (db.tasks.filter upcomingFilter).map (taskJoin db) :=
      List.mem_mergeSort.mp hr1
    obtain ⟨t, ht, rfl⟩ := List.mem_map.mp hr2
    obtain ⟨htmem, htfilter⟩ := List.mem_filter.mp ht
    have hf : ¬t.status = "Completed" ∧ ¬t.status = "Cancelled" := by
      simpa [upcomingFilter] using htfilter
    exact ⟨hf.1, hf.2, htmem⟩
  · unfold get_upcoming_tasks
    rw [List.length_take, List.length_mergeSort, List.length_map]
  · exact List.Pairwise.sublist (List.take_sublist _ _)
      (List.sorted_mergeSort upcomingLE_trans upcomingLE_total _)

/-- A store whose tasks include a Completed task due earliest, plus two
open tasks (one without a due date). -/
def tasksDemoDB : DB :=
  ⟨[], [], [],
   [⟨1, "write thank-you note", some 1, "Completed", some "High", "", none, none, none, 1⟩,
    ⟨2, "follow up", none, "Open", none, "", none, none, none, 2⟩,
    ⟨3, "prepare interview", some 5, "Open", some "Low", "", none, none, none, 3⟩],
   1, 1, 1, 4, 4⟩

/-- Witness for C6 at `tasksDemoDB`: the Completed task due earliest is
excluded, leaving exactly the two open tasks, in sorted order. -/
theorem C6_upcoming_tasks_query_witness :
    (get_upcoming_tasks tasksDemoDB 5).length = 2 ∧
    List.Pairwise (fun a b => upcomingLE a b = true) (get_upcoming_tasks tasksDemoDB 5) := by
  obtain ⟨h1, h2, h3⟩ := C6_upcoming_tasks_query tasksDemoDB 5
  refine ⟨?_, h3⟩
  rw [h2]
  rfl

/-- Claim C8: `list_all` returns, for each entity kind, a permutation of
the stored rows sorted per the specified order: Company by name ascending;
Job by creation time descending; Recruiter by name ascending; Task by due
date ascending with absent due dates last, then status, then priority
descending with absent priorities last, then creation time. -/
theorem C8_list_all_orderings (db : DB) :
    List.Perm (get_all_companies db) db.companies ∧
    List.Pairwise (fun a b => companyLE a b = true) (get_all_companies db) ∧
    List.Perm ((get_all_jobs db).map Prod.fst) db.jobs ∧
    List.Pairwise (fun a b => jobCreatedDesc a b = true) (get_all_jobs db) ∧
    List.Perm ((get_all_recruiters db).map Prod.fst) db.recruiters ∧
    List.Pairwise (fun a b => recruiterNameAsc a b = true) (get_all_recruiters db) ∧
    List.Perm ((get_all_tasks db).map Prod.fst) db.tasks ∧
    List.Pairwise (fun a b => allTasksLE a b = true) (get_all_tasks db) := by
  refine ⟨List.mergeSort_perm _ _, ?_, ?_, ?_, ?_, ?_, ?_, ?_⟩
  · exact @List.sorted_mergeSort _ companyLE
      (fun a b c hab hbc => strAsc_trans _ _ _ hab hbc)
      (fun a b => strAsc_total _ _) db.companies
  · have h := (List.mergeSort_perm
      (db.jobs.map (fun j => (j, joinCompanyName db j.company_id))) jobCreatedDesc).map Prod.fst
    simpa [get_all_jobs, List.map_map, Function.comp_def] using h
  · exact @List.sorted_mergeSort _ jobCreatedDesc
      (fun a b c hab hbc => natDesc_trans _ _ _ hab hbc)
      (fun a b => natDesc_total _ _) _
  · have h := (List.mergeSort_perm
      (db.recruiters.map (fun r => (r, r.agency_company_id.bind (joinCompanyName db))))
      recruiterNameAsc).map Prod.fst
    simpa [get_all_recruiters, List.map_map, Function.comp_def] using h
  · exact @List.sorted_mergeSort _ recruiterNameAsc
      (fun a b c hab hbc => strAsc_trans _ _ _ hab hbc)
      (fun a b => strAsc_total _ _) _
  · have h := (List.mergeSort_perm (db.tasks.map (taskJoin db)) allTasksLE).map Prod.fst
    simpa [get_all_tasks, List.map_map, Function.comp_def, taskJoin] using h
  · exact @List.sorted_mergeSort _ allTasksLE allTasksLE_trans allTasksLE_total _

end PersonalCRM
